import Mathlib

/-!
Shallow embedding of the EasyPeek backend seed/ingestion services and the
news HTTP handler parameter sanitization, with theorems checking the
natural-language specification against the code.

Sources embedded:
* `internal/services/seed_service.go` — `SeedNewsFromJSON`, `batchInsertNews`,
  `SeedInitialAdmin`, `SeedRSSources`.
* `internal/api/news_hander.go` — pagination / limit parameter clamping in
  `GetAllNews`, `SearchNews`, `GetNewsByCategory`, `GetUnlinkedNews`,
  `GetHotNews`.

The persistence collaborator (GORM) is modelled as a list of rows plus
explicit primitive functions (`resolve` for the duplicate lookup, `prim` for
a chunk insert, `createSrc` / `createU` for single-row creates) that may
fault, mirroring the fact that every GORM call in the source can return an
error.  Healthy instantiations (`firstByGuidOrLink`, `primOk`, …) give the
fault-free semantics.  Wall-clock time is a `Nat` parameter and
`time.Parse` is a `String → Option Nat` parameter, since both are external
library calls.
-/

namespace EasyPeek

/-- Model of `models.NewsType` with its two variants `NewsTypeManual` and
`NewsTypeRSS`. -/
inductive NewsType where
  | manual
  | rss
deriving DecidableEq, Repr

/-- Model of `models.News` (the fields populated by `SeedNewsFromJSON`; `id`
is the numeric identifier the store assigns, zero before persist). -/
structure News where
  id : Nat := 0
  title : String := ""
  content : String := ""
  summary : String := ""
  description : String := ""
  source : String := ""
  category : String := ""
  publishedAt : Nat := 0
  createdBy : Option Nat := none
  isActive : Bool := false
  sourceType : NewsType := .manual
  rssSourceID : Option Nat := none
  link : String := ""
  guid : String := ""
  author : String := ""
  imageURL : String := ""
  tags : String := ""
  language : String := ""
  viewCount : Int := 0
  likeCount : Int := 0
  commentCount : Int := 0
  shareCount : Int := 0
  hotnessScore : Rat := 0
  status : String := ""
  isProcessed : Bool := false
deriving DecidableEq, Repr

/-- Model of `NewsJSONData`, one candidate record of the bulk JSON source. -/
structure NewsJSONData where
  title : String := ""
  content : String := ""
  summary : String := ""
  description : String := ""
  source : String := ""
  category : String := ""
  publishedAt : String := ""
  createdBy : Option Nat := none
  isActive : Bool := false
  sourceType : String := ""
  rssSourceID : Option Nat := none
  link : String := ""
  guid : String := ""
  author : String := ""
  imageURL : String := ""
  tags : String := ""
  language : String := ""
  viewCount : Int := 0
  likeCount : Int := 0
  commentCount : Int := 0
  shareCount : Int := 0
  hotnessScore : Rat := 0
  status : String := ""
  isProcessed : Bool := false
deriving DecidableEq, Repr

/-- Outcome of the duplicate lookup
`s.db.Where("guid = ? OR link = ?", guid, link).First(&existingNews)`:
`err == nil` (found), `err == gorm.ErrRecordNotFound`, or any other storage
error. -/
inductive LookupResult where
  | found (n : News)
  | notFound
  | dbError (e : String)
deriving DecidableEq, Repr

/-- Healthy semantics of the duplicate lookup: the first stored row whose
GUID or link matches. -/
def firstByGuidOrLink (db : List News) (guid link : String) : LookupResult :=
  match db.find? (fun n => n.guid == guid || n.link == link) with
  | some n => .found n
  | none => .notFound

/-- Structural worker for `chunks50`; the fuel is an upper bound on the
list length, so the fuel-exhausted arm is never taken. -/
def chunks50Go {α : Type} : Nat → List α → List (List α)
  | _, [] => []
  | 0, a :: t => [a :: t]
  | fuel + 1, a :: t => (a :: t).take 50 :: chunks50Go fuel ((a :: t).drop 50)

/-- Chunks of fifty, as `tx.CreateInBatches(newsList, 50)` splits its input. -/
def chunks50 {α : Type} (l : List α) : List (List α) :=
  chunks50Go l.length l

/-- Sequential dispatch of the chunks to the bulk-insert primitive inside the
transaction: the first failing chunk aborts. -/
def createInBatches (prim : List News → List News → Except String (List News)) :
    List News → List (List News) → Except String (List News)
  | db, [] => .ok db
  | db, c :: cs =>
    match prim db c with
    | .ok db2 => createInBatches prim db2 cs
    | .error e => .error e

/-- Result of a transactional write: the rows afterwards, and the error if
the transaction rolled back (in which case the rows are the original ones). -/
structure TxResult where
  db : List News
  err : Option String
deriving DecidableEq, Repr

/-- Model of `SeedService.batchInsertNews`: empty input returns success
without touching storage; otherwise all chunks run inside one transaction,
and any chunk failure rolls the whole call back. -/
def batchInsertNews (prim : List News → List News → Except String (List News))
    (newsList : List News) (db : List News) : TxResult :=
  if newsList.isEmpty then ⟨db, none⟩
  else
    match createInBatches prim db (chunks50 newsList) with
    | .ok db2 => ⟨db2, none⟩
    | .error e => ⟨db, some e⟩

/-- Construction of a `models.News` from one candidate, as in the loop body
of `SeedNewsFromJSON`: timestamp parse failure falls back to the current
time, and the source-type tag maps `"rss"` to the RSS variant and anything
else to manual. -/
def mkNews (parseTime : String → Option Nat) (now : Nat) (d : NewsJSONData) : News :=
  { title := d.title
    content := d.content
    summary := d.summary
    description := d.description
    source := d.source
    category := d.category
    publishedAt := (parseTime d.publishedAt).getD now
    createdBy := d.createdBy
    isActive := d.isActive
    sourceType := if d.sourceType == "rss" then .rss else .manual
    rssSourceID := d.rssSourceID
    link := d.link
    guid := d.guid
    author := d.author
    imageURL := d.imageURL
    tags := d.tags
    language := d.language
    viewCount := d.viewCount
    likeCount := d.likeCount
    commentCount := d.commentCount
    shareCount := d.shareCount
    hotnessScore := d.hotnessScore
    status := d.status
    isProcessed := d.isProcessed }

/-- State of the import loop: stored rows, the in-memory accumulation
buffer (`newsList`), the two counters, and the trace of Batch Writer call
sizes (one entry per `batchInsertNews` call, recording the length of the
list handed to it). -/
structure ImportState where
  db : List News
  buffer : List News
  imported : Nat
  skipped : Nat
  flushes : List Nat
deriving DecidableEq, Repr

/-- One iteration of the loop in `SeedNewsFromJSON`: duplicate found counts
a skip; a lookup error is logged and the candidate dropped; otherwise the
record is buffered, the imported counter incremented, and a full buffer of
100 is flushed through the Batch Writer and cleared. -/
def processCandidate (resolve : List News → String → String → LookupResult)
    (prim : List News → List News → Except String (List News))
    (parseTime : String → Option Nat) (now : Nat)
    (st : ImportState) (d : NewsJSONData) : Except String ImportState :=
  match resolve st.db d.guid d.link with
  | .found _ => .ok { st with skipped := st.skipped + 1 }
  | .dbError _ => .ok st
  | .notFound =>
    let buf := st.buffer ++ [mkNews parseTime now d]
    if buf.length ≥ 100 then
      let r := batchInsertNews prim buf st.db
      match r.err with
      | some e => .error ("failed to batch insert news: " ++ e)
      | none => .ok ⟨r.db, [], st.imported + 1, st.skipped, st.flushes ++ [buf.length]⟩
    else
      .ok ⟨st.db, buf, st.imported + 1, st.skipped, st.flushes⟩

/-- The candidate loop of `SeedNewsFromJSON`, in source order. -/
def importLoop (resolve : List News → String → String → LookupResult)
    (prim : List News → List News → Except String (List News))
    (parseTime : String → Option Nat) (now : Nat) :
    ImportState → List NewsJSONData → Except String ImportState
  | st, [] => .ok st
  | st, d :: ds =>
    match processCandidate resolve prim parseTime now st d with
    | .ok st2 => importLoop resolve prim parseTime now st2 ds
    | .error e => .error e

/-- Observable outcome of a successful `SeedNewsFromJSON` run: the two
counters it reports, the rows afterwards, and the Batch Writer call sizes. -/
structure ImportOutcome where
  imported : Nat
  skipped : Nat
  db : List News
  flushes : List Nat
deriving DecidableEq, Repr

/-- Model of `SeedService.SeedNewsFromJSON`: nil connection is an error; a
nonzero row count skips the whole import; the bulk source (file read plus
JSON parse, collapsed into one `Except`) is only consulted afterwards; then
the candidate loop runs and the buffer remainder is flushed. -/
def SeedNewsFromJSON (resolve : List News → String → String → LookupResult)
    (prim : List News → List News → Except String (List News))
    (parseTime : String → Option Nat) (now : Nat)
    (source : Except String (List NewsJSONData)) (conn : Option (List News)) :
    Except String ImportOutcome :=
  match conn with
  | none => .error "database connection not initialized"
  | some db =>
    if db.length > 0 then .ok ⟨0, 0, db, []⟩
    else
      match source with
      | .error e => .error ("failed to read JSON file: " ++ e)
      | .ok newsDataList =>
        match importLoop resolve prim parseTime now ⟨db, [], 0, 0, []⟩ newsDataList with
        | .error e => .error e
        | .ok st =>
          if st.buffer.length > 0 then
            let r := batchInsertNews prim st.buffer st.db
            match r.err with
            | some e => .error ("failed to insert remaining news: " ++ e)
            | none => .ok ⟨st.imported, st.skipped, r.db, st.flushes ++ [st.buffer.length]⟩
          else
            .ok ⟨st.imported, st.skipped, st.db, st.flushes⟩

/-- Healthy chunk-insert primitive: appends the chunk to the stored rows. -/
def primOk (db chunk : List News) : Except String (List News) :=
  .ok (db ++ chunk)

/-- Model of `models.User` (the fields `SeedInitialAdmin` populates). -/
structure User where
  username : String
  email : String
  password : String
  role : String
  status : String
deriving DecidableEq, Repr

/-- Number of stored accounts with role `admin`, as counted by
`s.db.Model(&models.User{}).Where("role = ?", "admin").Count`. -/
def countAdmins (users : List User) : Nat :=
  (users.filter (fun u => u.role == "admin")).length

/-- Environment lookup with the fixed fallback used for each admin setting:
`os.Getenv` yields the empty string when the variable is unset. -/
def getEnvOr (env : String → String) (key dflt : String) : String :=
  if env key == "" then dflt else env key

/-- Healthy single-row create for users: appends the row. -/
def createUserOk (u : User) (users : List User) : Except String (List User) :=
  .ok (users ++ [u])

/-- Model of `SeedService.SeedInitialAdmin`.  The three format validators
live in the `utils` package, which is not under `src/`, so they are
parameters `vE`, `vP`, `vU`; the row create is the parameter `createU`
since `s.db.Create` can fault. -/
def seedInitialAdminBody (env : String → String) (vE vP vU : String → Bool)
    (createU : User → List User → Except String (List User))
    (users : List User) : Except String (List User) :=
  if countAdmins users > 0 then .ok users
  else if !(vE (getEnvOr env "ADMIN_EMAIL" "admin@easypeek.com")) then
    .error "invalid admin email format"
  else if !(vP (getEnvOr env "ADMIN_PASSWORD" "admin123456")) then
    .error "admin password must contain at least one letter and one number"
  else if !(vU (getEnvOr env "ADMIN_USERNAME" "admin")) then
    .error "invalid admin username format"
  else if (users.find? (fun u =>
      u.email == getEnvOr env "ADMIN_EMAIL" "admin@easypeek.com" ||
      u.username == getEnvOr env "ADMIN_USERNAME" "admin")).isSome then
    .error "admin email or username already exists"
  else
    match createU ⟨getEnvOr env "ADMIN_USERNAME" "admin",
        getEnvOr env "ADMIN_EMAIL" "admin@easypeek.com",
        getEnvOr env "ADMIN_PASSWORD" "admin123456", "admin", "active"⟩ users with
    | .ok users2 => .ok users2
    | .error e => .error e

/-- Model of `SeedService.SeedInitialAdmin`: nil connection is an error,
otherwise the bootstrap body runs on the stored accounts. -/
def SeedInitialAdmin (env : String → String) (vE vP vU : String → Bool)
    (createU : User → List User → Except String (List User))
    (conn : Option (List User)) : Except String (List User) :=
  match conn with
  | none => .error "database connection not initialized"
  | some users => seedInitialAdminBody env vE vP vU createU users

/-- Modelled from the spec: `utils.IsValidEmail` is not under `src/` (only
its caller is).  The spec calls it an email format validator that rejects
`"not-an-email"`; modelled as requiring an `'@'` character. -/
def IsValidEmail (s : String) : Bool :=
  s.toList.contains '@'

/-- Model of `models.RSSSource` (the fields `SeedRSSources` populates). -/
structure RSSSource where
  name : String
  url : String
  category : String
  language : String
  isActive : Bool
  description : String
  priority : Nat
  updateFreq : Nat
deriving DecidableEq, Repr

/-- The two default RSS sources hard-coded in `SeedRSSources`. -/
def defaultSources : List RSSSource :=
  [⟨"新浪新闻", "http://rss.sina.com.cn/news/china/focus15.xml", "国内新闻", "zh",
    true, "新浪网国内新闻RSS源", 1, 60⟩,
   ⟨"网易科技", "http://rss.163.com/rss/tech_index.xml", "科技", "zh",
    true, "网易科技新闻RSS源", 1, 60⟩]

/-- Model of `SeedService.SeedRSSources`: nil connection is an error; a
failing count query returns its error unwrapped (`return err`); any
existing source skips the seeding; otherwise each default source is created
and a create failure is only logged — the loop continues with the next
source and the function still returns success.  The count query is the
parameter `countSrc` since `s.db.Model(&models.RSSSource{}).Count` can
fault. -/
def SeedRSSources (countSrc : List RSSSource → Except String Nat)
    (createSrc : RSSSource → List RSSSource → Except String (List RSSSource))
    (conn : Option (List RSSSource)) : Except String (List RSSSource) :=
  match conn with
  | none => .error "database connection not initialized"
  | some sources =>
    match countSrc sources with
    | .error e => .error e
    | .ok rssCount =>
      if rssCount > 0 then .ok sources
      else
        .ok (defaultSources.foldl
          (fun acc s =>
            match createSrc s acc with
            | .ok acc2 => acc2
            | .error _ => acc) sources)

/-- Healthy count query over the stored RSS sources: the number of rows. -/
def countRSSOk (sources : List RSSSource) : Except String Nat :=
  .ok sources.length

/-- Outcome of the email/username uniqueness lookup in `SeedInitialAdmin`
(`s.db.Where("email = ? OR username = ?", ...).First(&existingUser)`), with
the error channel explicit: `err == nil` (a row was found),
`gorm.ErrRecordNotFound`, or any other storage error. -/
inductive UserLookupResult where
  | found (u : User)
  | notFound
  | dbError (e : String)
deriving DecidableEq, Repr

/-- The conflict decision taken on that lookup in `SeedInitialAdmin`: the
source tests only `err == nil`, so the conflict error is produced exactly
when the lookup found a row, while a not-found and a genuine storage fault
both fall through to the create with no error produced — the fault is not
surfaced. -/
def adminUniquenessCheck : UserLookupResult → Option String
  | .found _ => some "admin email or username already exists"
  | .notFound => none
  | .dbError _ => none

/-- Model of Go `strconv.Atoi` on the small inputs the handlers see: an
optional sign followed by at least one decimal digit; anything else is a
parse error (`none`). -/
def parseDigits : List Char → Option Nat
  | [] => none
  | c :: cs =>
    if (c :: cs).all Char.isDigit then
      some ((c :: cs).foldl (fun a ch => a * 10 + (ch.toNat - 48)) 0)
    else none

/-- Sign handling of `strconv.Atoi`. -/
def atoi (s : String) : Option Int :=
  match s.toList with
  | '+' :: t => (parseDigits t).map (fun n => (n : Int))
  | '-' :: t => (parseDigits t).map (fun n => -(n : Int))
  | t => (parseDigits t).map (fun n => (n : Int))

/-- Page sanitization shared by the four paginated handlers: the query
parameter defaults to `"1"` when absent, and a parse failure or a value
below 1 is replaced by 1. -/
def parsePage (q : Option String) : Int :=
  match atoi (q.getD "1") with
  | none => 1
  | some p => if p < 1 then 1 else p

/-- Size sanitization shared by the four paginated handlers: the query
parameter defaults to `"10"` when absent, and a parse failure or a value
outside `[1, 100]` is replaced by 10. -/
def parseSize (q : Option String) : Int :=
  match atoi (q.getD "10") with
  | none => 10
  | some n => if n < 1 ∨ n > 100 then 10 else n

/-- The page/size sanitization lines of `NewsHandler.GetAllNews`. -/
def GetAllNewsParams (page size : Option String) : Int × Int :=
  (parsePage page, parseSize size)

/-- The page/size sanitization lines of `NewsHandler.SearchNews`. -/
def SearchNewsParams (page size : Option String) : Int × Int :=
  (parsePage page, parseSize size)

/-- The page/size sanitization lines of `NewsHandler.GetNewsByCategory`. -/
def GetNewsByCategoryParams (page size : Option String) : Int × Int :=
  (parsePage page, parseSize size)

/-- The page/size sanitization lines of `NewsHandler.GetUnlinkedNews`. -/
def GetUnlinkedNewsParams (page size : Option String) : Int × Int :=
  (parsePage page, parseSize size)

/-- The limit sanitization lines of `NewsHandler.GetHotNews`: default
`"10"`, and a parse failure, a value at most 0, or a value above 100 is
replaced by 10. -/
def parseLimit (q : Option String) : Int :=
  match atoi (q.getD "10") with
  | none => 10
  | some l => if l ≤ 0 ∨ l > 100 then 10 else l

/-- Ordering of the hot-news listing: strictly greater hotness score first,
ties broken by ascending identifier. -/
def hotOrder (a b : News) : Prop :=
  b.hotnessScore < a.hotnessScore ∨ (a.hotnessScore = b.hotnessScore ∧ a.id ≤ b.id)

instance : DecidableRel hotOrder := fun a b => by
  unfold hotOrder; infer_instance

instance : IsTotal News hotOrder := by
  constructor
  intro a b
  rcases lt_trichotomy a.hotnessScore b.hotnessScore with h | h | h
  · exact Or.inr (Or.inl h)
  · rcases Nat.le_total a.id b.id with hid | hid
    · exact Or.inl (Or.inr ⟨h, hid⟩)
    · exact Or.inr (Or.inr ⟨h.symm, hid⟩)
  · exact Or.inl (Or.inl h)

instance : IsTrans News hotOrder := by
  constructor
  intro a b c hab hbc
  rcases hab with h1 | ⟨h1, hid1⟩
  · rcases hbc with h2 | ⟨h2, _⟩
    · exact Or.inl (h2.trans h1)
    · exact Or.inl (h2 ▸ h1)
  · rcases hbc with h2 | ⟨h2, hid2⟩
    · exact Or.inl (h1 ▸ h2)
    · exact Or.inr ⟨h1.trans h2, hid1.trans hid2⟩

/-- Modelled from the spec: `NewsService.GetHotNews` is not under `src/`
(only its caller `NewsHandler.GetHotNews` is).  Per the spec it returns up
to `limit` stored records ordered by descending hotness score, ties broken
deterministically by identifier. -/
def GetHotNewsQuery (db : List News) (limit : Int) : List News :=
  (db.insertionSort hotOrder).take limit.toNat

/-- Model of `NewsHandler.GetHotNews`: sanitize the limit, then run the
hot-news query. -/
def GetHotNews (db : List News) (limitQ : Option String) : List News :=
  GetHotNewsQuery db (parseLimit limitQ)

/-- Test fixture: a candidate carrying only a GUID and a link. -/
def cand (g l : String) : NewsJSONData :=
  { guid := g, link := l }

/-- Test fixture: the `i`-th candidate of a batch of pairwise fresh
GUIDs and links. -/
def fresh (i : Nat) : NewsJSONData :=
  { guid := "g" ++ toString i, link := "l" ++ toString i }

/-- Test fixture: one stored news row. -/
def sampleNews : News :=
  { guid := "g0", link := "l0" }

/-- Test fixture: a chunk-insert primitive whose every call faults. -/
def failPrim (_db _chunk : List News) : Except String (List News) :=
  .error "insert failed"

/-! ## Helper lemmas -/

theorem chunks50Go_flatten {α : Type} :
    ∀ (fuel : Nat) (l : List α), l.length ≤ fuel → (chunks50Go fuel l).flatten = l := by
  intro fuel
  induction fuel with
  | zero =>
    intro l h
    cases l with
    | nil => simp [chunks50Go]
    | cons a t => simp at h
  | succ n ih =>
    intro l h
    cases l with
    | nil => simp [chunks50Go]
    | cons a t =>
      have hlen : ((a :: t).drop 50).length ≤ n := by
        simp only [List.length_drop, List.length_cons]
        simp only [List.length_cons] at h
        omega
      simp only [chunks50Go, List.flatten_cons, ih _ hlen]
      exact List.take_append_drop 50 (a :: t)

theorem chunks50_flatten {α : Type} (l : List α) : (chunks50 l).flatten = l :=
  chunks50Go_flatten l.length l (Nat.le_refl _)

theorem chunks50Go_ne_nil {α : Type} (fuel : Nat) (a : α) (t : List α) :
    chunks50Go fuel (a :: t) ≠ [] := by
  cases fuel <;> simp [chunks50Go]

theorem chunks50Go_mem_length {α : Type} :
    ∀ (fuel : Nat) (l : List α), l.length ≤ fuel →
      ∀ c ∈ chunks50Go fuel l, c ≠ [] ∧ c.length ≤ 50 := by
  intro fuel
  induction fuel with
  | zero =>
    intro l h c hc
    cases l with
    | nil => simp [chunks50Go] at hc
    | cons a t => simp at h
  | succ n ih =>
    intro l h c hc
    cases l with
    | nil => simp [chunks50Go] at hc
    | cons a t =>
      simp only [chunks50Go, List.mem_cons] at hc
      rcases hc with hc | hc
      · subst hc
        have h1 := List.length_take 50 (a :: t)
        simp only [List.length_cons] at h1
        constructor
        · intro hnil
          rw [hnil] at h1
          simp only [List.length_nil] at h1
          omega
        · omega
      · refine ih _ ?_ c hc
        simp only [List.length_drop, List.length_cons]
        simp only [List.length_cons] at h
        omega

theorem chunks50_mem_length {α : Type} (l : List α) :
    ∀ c ∈ chunks50 l, c ≠ [] ∧ c.length ≤ 50 :=
  chunks50Go_mem_length l.length l (Nat.le_refl _)

theorem chunks50Go_dropLast_length {α : Type} :
    ∀ (fuel : Nat) (l : List α), l.length ≤ fuel →
      ∀ c ∈ (chunks50Go fuel l).dropLast, c.length = 50 := by
  intro fuel
  induction fuel with
  | zero =>
    intro l h c hc
    cases l with
    | nil => simp [chunks50Go] at hc
    | cons a t => simp at h
  | succ n ih =>
    intro l h c hc
    cases l with
    | nil => simp [chunks50Go] at hc
    | cons a t =>
      simp only [chunks50Go] at hc
      by_cases hrest : (a :: t).drop 50 = []
      · rw [hrest] at hc
        simp [chunks50Go] at hc
      · have hne : chunks50Go n ((a :: t).drop 50) ≠ [] := by
          obtain ⟨b, s, hd⟩ := List.exists_cons_of_ne_nil hrest
          rw [hd]
          exact chunks50Go_ne_nil n b s
        rw [List.dropLast_cons_of_ne_nil hne] at hc
        rcases List.mem_cons.mp hc with hc | hc
        · subst hc
          have hlong : 50 ≤ (a :: t).length := by
            by_contra hshort
            exact hrest (List.drop_eq_nil_of_le (by omega))
          have h1 := List.length_take 50 (a :: t)
          omega
        · have hlen : ((a :: t).drop 50).length ≤ n := by
            simp only [List.length_drop, List.length_cons]
            simp only [List.length_cons] at h
            omega
          exact ih _ hlen c hc

theorem chunks50_dropLast_length {α : Type} (l : List α) :
    ∀ c ∈ (chunks50 l).dropLast, c.length = 50 :=
  chunks50Go_dropLast_length l.length l (Nat.le_refl _)

theorem createInBatches_primOk :
    ∀ (cs : List (List News)) (db : List News),
      createInBatches primOk db cs = .ok (db ++ cs.flatten) := by
  intro cs
  induction cs with
  | nil => intro db; simp [createInBatches]
  | cons c cs ih =>
    intro db
    simp [createInBatches, primOk, ih (db ++ c), List.append_assoc]

theorem batchInsertNews_primOk (l db : List News) :
    batchInsertNews primOk l db = ⟨db ++ l, none⟩ := by
  cases l with
  | nil => simp [batchInsertNews]
  | cons a t =>
    simp [batchInsertNews, createInBatches_primOk, chunks50_flatten]

theorem firstByGuidOrLink_ne_dbError (db : List News) (g l e : String) :
    firstByGuidOrLink db g l ≠ .dbError e := by
  unfold firstByGuidOrLink
  cases db.find? (fun n => n.guid == g || n.link == l) <;> simp

theorem firstByGuidOrLink_found (db : List News) (g l : String)
    (h : ∃ m ∈ db, m.guid = g ∨ m.link = l) :
    ∃ n, firstByGuidOrLink db g l = .found n := by
  obtain ⟨m, hm, hml⟩ := h
  have hsome : (db.find? (fun n => n.guid == g || n.link == l)).isSome := by
    rw [List.find?_isSome]
    refine ⟨m, hm, ?_⟩
    rcases hml with h | h <;> simp [h]
  obtain ⟨n, hn⟩ := Option.isSome_iff_exists.mp hsome
  refine ⟨n, ?_⟩
  unfold firstByGuidOrLink
  rw [hn]

/-! ## Claim theorems -/

/-- C1.  A store already holding at least one news row makes
`SeedNewsFromJSON` a successful no-op: the bulk source is never read (the
result does not depend on it), no Batch Writer call happens, both reported
counters are zero, and the rows are unchanged. -/
theorem seedNewsFromJSON_nonempty_store_noop
    (resolve : List News → String → String → LookupResult)
    (prim : List News → List News → Except String (List News))
    (parseTime : String → Option Nat) (now : Nat)
    (src src' : Except String (List NewsJSONData)) (db : List News)
    (h : db ≠ []) :
    SeedNewsFromJSON resolve prim parseTime now src (some db) = .ok ⟨0, 0, db, []⟩ ∧
    SeedNewsFromJSON resolve prim parseTime now src (some db) =
      SeedNewsFromJSON resolve prim parseTime now src' (some db) := by
  have hp : 0 < db.length := List.length_pos.mpr h
  constructor
  · simp [SeedNewsFromJSON, hp]
  · simp [SeedNewsFromJSON, hp]

/-- Witness for C1 at a one-row store and two different bulk sources. -/
theorem seedNewsFromJSON_nonempty_store_noop_witness :
    SeedNewsFromJSON firstByGuidOrLink primOk (fun _ => none) 0
      (.ok [cand "g1" "http://a", cand "g1" "http://b"]) (some [sampleNews]) =
      .ok ⟨0, 0, [sampleNews], []⟩ ∧
    SeedNewsFromJSON firstByGuidOrLink primOk (fun _ => none) 0
      (.ok [cand "g1" "http://a", cand "g1" "http://b"]) (some [sampleNews]) =
      SeedNewsFromJSON firstByGuidOrLink primOk (fun _ => none) 0
        (.error "unreadable file") (some [sampleNews]) :=
  seedNewsFromJSON_nonempty_store_noop firstByGuidOrLink primOk (fun _ => none) 0
    (.ok [cand "g1" "http://a", cand "g1" "http://b"]) (.error "unreadable file")
    [sampleNews] (by simp)

/-- C2 counterexample.  Importing `[{guid:"g1",link:"http://a"},
{guid:"g1",link:"http://b"}]` into an empty store yields imported=2 and
skipped=0, not imported=1 and skipped=1. -/
theorem import_two_same_guid_counterexample :
    ((SeedNewsFromJSON firstByGuidOrLink primOk (fun _ => none) 0
        (.ok [cand "g1" "http://a", cand "g1" "http://b"]) (some [])).toOption.map
      (fun o => (o.imported, o.skipped))) = some (2, 0) ∧
    ((SeedNewsFromJSON firstByGuidOrLink primOk (fun _ => none) 0
        (.ok [cand "g1" "http://a", cand "g1" "http://b"]) (some [])).toOption.map
      (fun o => (o.imported, o.skipped))) ≠ some (1, 1) := by
  constructor <;> decide

/-- C2 amended.  Importing the two-candidate sequence into an empty store
yields imported=2 and skipped=0, with both rows persisted by the single
final flush of size 2: the duplicate lookup consults only persisted rows,
and with fewer than 100 accepted candidates nothing is persisted until
after the loop, so the second candidate is not seen as a duplicate. -/
theorem import_two_same_guid_counts :
    (SeedNewsFromJSON firstByGuidOrLink primOk (fun _ => none) 0
        (.ok [cand "g1" "http://a", cand "g1" "http://b"]) (some [])).toOption.map
      (fun o => (o.imported, o.skipped, o.db.length, o.flushes)) = some (2, 0, 2, [2]) := by
  decide

/-- C5.  The Batch Writer: empty input is a success that never calls the
insert primitive and leaves the rows alone; a healthy primitive persists
the whole input list appended to the rows; the transaction dispatches the
input in chunks of exactly 50 (every chunk nonempty and at most 50, every
chunk but the last exactly 50, and the chunks reassemble the input); and
if the chunk sequence fails inside the transaction the whole call reports
the error with the rows rolled back to their original value. -/
theorem batchInsertNews_contract :
    (∀ (prim : List News → List News → Except String (List News)) (db : List News),
      batchInsertNews prim [] db = ⟨db, none⟩) ∧
    (∀ (l db : List News), batchInsertNews primOk l db = ⟨db ++ l, none⟩) ∧
    (∀ l : List News, (chunks50 l).flatten = l ∧
      (∀ c ∈ (chunks50 l).dropLast, c.length = 50) ∧
      (∀ c ∈ chunks50 l, c ≠ [] ∧ c.length ≤ 50)) ∧
    (∀ (prim : List News → List News → Except String (List News)) (l db : List News)
      (e : String), createInBatches prim db (chunks50 l) = .error e →
      batchInsertNews prim l db = ⟨db, some e⟩) := by
  refine ⟨fun prim db => by simp [batchInsertNews], batchInsertNews_primOk,
    fun l => ⟨chunks50_flatten l, chunks50_dropLast_length l, chunks50_mem_length l⟩,
    fun prim l db e he => ?_⟩
  cases l with
  | nil => simp [chunks50, chunks50Go, createInBatches] at he
  | cons a t =>
    simp only [batchInsertNews, List.isEmpty_cons, Bool.false_eq_true, if_false, he]

/-- Witness for C5: the empty no-op under a faulting primitive, a healthy
three-row insert, and a faulting one-row insert that reports the error and
keeps the store empty. -/
theorem batchInsertNews_contract_witness :
    batchInsertNews failPrim [] [sampleNews] = ⟨[sampleNews], none⟩ ∧
    batchInsertNews primOk [sampleNews, sampleNews, sampleNews] [] =
      ⟨[sampleNews, sampleNews, sampleNews], none⟩ ∧
    (chunks50 [sampleNews]).flatten = [sampleNews] ∧
    batchInsertNews failPrim [sampleNews] [] = ⟨[], some "insert failed"⟩ :=
  ⟨batchInsertNews_contract.1 failPrim [sampleNews],
   batchInsertNews_contract.2.1 [sampleNews, sampleNews, sampleNews] [],
   (batchInsertNews_contract.2.2.1 [sampleNews]).1,
   batchInsertNews_contract.2.2.2 failPrim [sampleNews] [] "insert failed" rfl⟩

/-- C3.  A candidate whose GUID equals a stored row's GUID, or whose link
equals a stored row's link, is not persisted by the bulk import: processing
it leaves rows, buffer and imported counter untouched and increments the
skipped counter by exactly one. -/
theorem duplicate_candidate_skipped_once
    (prim : List News → List News → Except String (List News))
    (parseTime : String → Option Nat) (now : Nat)
    (st : ImportState) (d : NewsJSONData) (m : News)
    (hm : m ∈ st.db) (hmatch : m.guid = d.guid ∨ m.link = d.link) :
    processCandidate firstByGuidOrLink prim parseTime now st d =
      .ok ⟨st.db, st.buffer, st.imported, st.skipped + 1, st.flushes⟩ := by
  obtain ⟨n, hn⟩ := firstByGuidOrLink_found st.db d.guid d.link ⟨m, hm, hmatch⟩
  unfold processCandidate
  rw [hn]

/-- Witness for C3 at a one-row store and a candidate matching its GUID. -/
theorem duplicate_candidate_skipped_once_witness :
    sampleNews ∈ [sampleNews] ∧
    (sampleNews.guid = (cand "g0" "other").guid ∨ sampleNews.link = (cand "g0" "other").link) ∧
    processCandidate firstByGuidOrLink primOk (fun _ => none) 0
      ⟨[sampleNews], [], 0, 0, []⟩ (cand "g0" "other") =
      .ok ⟨[sampleNews], [], 0, 1, []⟩ :=
  ⟨List.mem_cons_self sampleNews [], Or.inl rfl,
   duplicate_candidate_skipped_once primOk (fun _ => none) 0
     ⟨[sampleNews], [], 0, 0, []⟩ (cand "g0" "other") sampleNews
     (List.mem_cons_self sampleNews []) (Or.inl rfl)⟩

set_option maxRecDepth 10000 in
/-- C4.  An accepted candidate that brings the buffer below 100 is only
buffered; the one that brings it to exactly 100 triggers a Batch Writer
call with that 100-element buffer, which is then cleared; and importing
120 fresh candidates into an empty store persists exactly 120 rows through
a flush of 100 followed by a flush of 20. -/
theorem buffer_flush_at_100 :
    (∀ (resolve : List News → String → String → LookupResult)
      (prim : List News → List News → Except String (List News))
      (parseTime : String → Option Nat) (now : Nat) (st : ImportState) (d : NewsJSONData),
      resolve st.db d.guid d.link = .notFound →
      st.buffer.length + 1 < 100 →
      processCandidate resolve prim parseTime now st d =
        .ok ⟨st.db, st.buffer ++ [mkNews parseTime now d], st.imported + 1, st.skipped,
          st.flushes⟩) ∧
    (∀ (resolve : List News → String → String → LookupResult)
      (parseTime : String → Option Nat) (now : Nat) (st : ImportState) (d : NewsJSONData),
      resolve st.db d.guid d.link = .notFound →
      st.buffer.length + 1 = 100 →
      processCandidate resolve primOk parseTime now st d =
        .ok ⟨st.db ++ (st.buffer ++ [mkNews parseTime now d]), [], st.imported + 1,
          st.skipped, st.flushes ++ [100]⟩) ∧
    (SeedNewsFromJSON firstByGuidOrLink primOk (fun _ => none) 0
        (.ok ((List.range 120).map fresh)) (some [])).toOption.map
      (fun o => (o.imported, o.skipped, o.db.length, o.flushes)) =
      some (120, 0, 120, [100, 20]) := by
  refine ⟨?_, ?_, by decide⟩
  · intro resolve prim parseTime now st d hres hlen
    unfold processCandidate
    rw [hres]
    simp only []
    rw [if_neg]
    simp only [List.length_append, List.length_cons, List.length_nil]
    omega
  · intro resolve parseTime now st d hres hlen
    unfold processCandidate
    rw [hres]
    simp only []
    rw [if_pos (by simp only [List.length_append, List.length_cons, List.length_nil]; omega)]
    rw [batchInsertNews_primOk]
    simp only [List.length_append, List.length_cons, List.length_nil]
    rw [show st.buffer.length + (0 + 1) = 100 by omega]

/-- Witness for C4: a first accepted candidate is only buffered, and an
accepted candidate landing on a 99-element buffer triggers the flush of
100. -/
theorem buffer_flush_at_100_witness :
    processCandidate (fun _ _ _ => .notFound) primOk (fun _ => none) 0
      ⟨[], [], 0, 0, []⟩ (cand "g" "l") =
      .ok ⟨[], [mkNews (fun _ => none) 0 (cand "g" "l")], 1, 0, []⟩ ∧
    processCandidate (fun _ _ _ => .notFound) primOk (fun _ => none) 0
      ⟨[], List.replicate 99 sampleNews, 0, 0, []⟩ (cand "g" "l") =
      .ok ⟨List.replicate 99 sampleNews ++ [mkNews (fun _ => none) 0 (cand "g" "l")], [],
        1, 0, [100]⟩ :=
  ⟨buffer_flush_at_100.1 (fun _ _ _ => .notFound) primOk (fun _ => none) 0
     ⟨[], [], 0, 0, []⟩ (cand "g" "l") rfl (by simp),
   buffer_flush_at_100.2.1 (fun _ _ _ => .notFound) (fun _ => none) 0
     ⟨[], List.replicate 99 sampleNews, 0, 0, []⟩ (cand "g" "l") rfl (by simp)⟩

/-- C6 counterexample.  With a healthy count query and a create primitive
that faults on every call, `SeedRSSources` on an empty store still returns
success (and no source is stored): the per-source create failure is logged
and swallowed, not surfaced. -/
theorem seedRSSources_create_failure_ok :
    SeedRSSources countRSSOk (fun _ _ => .error "create failed") (some []) = .ok [] :=
  rfl

/-- C6 amended.  Every storage fault — connection absent, query or
transaction failure — is surfaced to the caller with its underlying cause
(wrapped where the source wraps it: a nil connection fails all three
seeding operations, a count-query fault fails `SeedRSSources` with the
error returned, and a Batch Writer fault aborts the bulk import with its
cause wrapped), except the documented per-record skip-on-parse-failure and
skip-on-lookup-error tolerances inside bulk ingestion and, additionally,
two tolerances the code contains: a failure to create a default RSS source
during RSS seeding is logged and skipped per source with `SeedRSSources`
still returning success, and a storage fault of the admin email/username
uniqueness query during bootstrap is treated exactly like "no existing
account" — the bootstrap proceeds and the fault is never surfaced. -/
theorem storage_fault_surfacing :
    (∀ (countSrc : List RSSSource → Except String Nat)
      (createSrc : RSSSource → List RSSSource → Except String (List RSSSource))
      (srcs : List RSSSource) (e : String),
      countSrc srcs = .error e →
      SeedRSSources countSrc createSrc (some srcs) = .error e) ∧
    (∀ (countSrc : List RSSSource → Except String Nat)
      (createSrc : RSSSource → List RSSSource → Except String (List RSSSource)),
      SeedRSSources countSrc createSrc none =
        .error "database connection not initialized") ∧
    (∀ (resolve : List News → String → String → LookupResult)
      (prim : List News → List News → Except String (List News))
      (parseTime : String → Option Nat) (now : Nat)
      (src : Except String (List NewsJSONData)),
      SeedNewsFromJSON resolve prim parseTime now src none =
        .error "database connection not initialized") ∧
    (∀ (env : String → String) (vE vP vU : String → Bool)
      (createU : User → List User → Except String (List User)),
      SeedInitialAdmin env vE vP vU createU none =
        .error "database connection not initialized") ∧
    (∀ (resolve : List News → String → String → LookupResult)
      (prim : List News → List News → Except String (List News))
      (parseTime : String → Option Nat) (now : Nat) (st : ImportState)
      (d : NewsJSONData) (e : String),
      resolve st.db d.guid d.link = .notFound →
      (batchInsertNews prim (st.buffer ++ [mkNews parseTime now d]) st.db).err = some e →
      100 ≤ st.buffer.length + 1 →
      processCandidate resolve prim parseTime now st d =
        .error ("failed to batch insert news: " ++ e)) ∧
    (∀ (resolve : List News → String → String → LookupResult)
      (prim : List News → List News → Except String (List News))
      (parseTime : String → Option Nat) (now : Nat) (st : ImportState)
      (d : NewsJSONData) (e : String),
      resolve st.db d.guid d.link = .dbError e →
      processCandidate resolve prim parseTime now st d = .ok st) ∧
    (∀ (createSrc : RSSSource → List RSSSource → Except String (List RSSSource))
      (srcs : List RSSSource),
      ∃ rows, SeedRSSources countRSSOk createSrc (some srcs) = .ok rows) ∧
    (∀ u : User, adminUniquenessCheck (.found u) =
      some "admin email or username already exists") ∧
    (∀ e : String, adminUniquenessCheck (.dbError e) = none ∧
      adminUniquenessCheck .notFound = none) := by
  refine ⟨?_, fun _ _ => rfl, fun _ _ _ _ _ => rfl, fun _ _ _ _ _ => rfl, ?_, ?_, ?_,
    fun _ => rfl, fun _ => ⟨rfl, rfl⟩⟩
  · intro countSrc createSrc srcs e h
    simp [SeedRSSources, h]
  · intro resolve prim parseTime now st d e hres herr hlen
    unfold processCandidate
    rw [hres]
    simp only []
    rw [if_pos (by simp only [List.length_append, List.length_cons, List.length_nil]; omega)]
    rw [herr]
  · intro resolve prim parseTime now st d e hres
    unfold processCandidate
    rw [hres]
  · intro createSrc srcs
    by_cases h : srcs.length > 0
    · exact ⟨srcs, by simp [SeedRSSources, countRSSOk, h]⟩
    · refine ⟨List.foldl
        (fun acc s =>
          match createSrc s acc with
          | .ok acc2 => acc2
          | .error _ => acc) srcs defaultSources, ?_⟩
      simp [SeedRSSources, countRSSOk, h]

/-- Witness for C6 amended: a faulting count query surfacing its error, a
healthy run on an empty store, a failing flush on a 99-element buffer
surfacing the wrapped cause, a duplicate-lookup fault being tolerated, and
a faulting uniqueness lookup producing no error. -/
theorem storage_fault_surfacing_witness :
    (fun (_ : List RSSSource) => (.error "count failed" : Except String Nat)) [] =
      .error "count failed" ∧
    SeedRSSources (fun _ => .error "count failed") (fun s acc => .ok (acc ++ [s]))
      (some []) = .error "count failed" ∧
    SeedRSSources countRSSOk (fun s acc => .ok (acc ++ [s])) none =
      .error "database connection not initialized" ∧
    processCandidate (fun _ _ _ => .notFound) failPrim (fun _ => none) 0
      ⟨[], List.replicate 99 sampleNews, 0, 0, []⟩ (cand "g" "l") =
      .error ("failed to batch insert news: " ++ "insert failed") ∧
    processCandidate (fun _ _ _ => .dbError "connection reset") primOk (fun _ => none) 0
      ⟨[], [], 0, 0, []⟩ (cand "g" "l") = .ok ⟨[], [], 0, 0, []⟩ ∧
    (∃ rows, SeedRSSources countRSSOk (fun s acc => .ok (acc ++ [s])) (some []) =
      .ok rows) ∧
    adminUniquenessCheck (.dbError "connection reset") = none :=
  ⟨rfl,
   storage_fault_surfacing.1 (fun _ => .error "count failed")
     (fun s acc => .ok (acc ++ [s])) [] "count failed" rfl,
   storage_fault_surfacing.2.1 countRSSOk (fun s acc => .ok (acc ++ [s])),
   storage_fault_surfacing.2.2.2.2.1 (fun _ _ _ => .notFound) failPrim (fun _ => none) 0
     ⟨[], List.replicate 99 sampleNews, 0, 0, []⟩ (cand "g" "l") "insert failed"
     rfl (by simp [batchInsertNews, failPrim, chunks50, chunks50Go, createInBatches])
     (by simp),
   storage_fault_surfacing.2.2.2.2.2.1 (fun _ _ _ => .dbError "connection reset") primOk
     (fun _ => none) 0 ⟨[], [], 0, 0, []⟩ (cand "g" "l") "connection reset" rfl,
   storage_fault_surfacing.2.2.2.2.2.2.1 (fun s acc => .ok (acc ++ [s])) [],
   (storage_fault_surfacing.2.2.2.2.2.2.2.2 "connection reset").1⟩

theorem countAdmins_append (l1 l2 : List User) :
    countAdmins (l1 ++ l2) = countAdmins l1 + countAdmins l2 := by
  simp [countAdmins, List.filter_append]

theorem seedInitialAdmin_ok_inv (env : String → String) (vE vP vU : String → Bool)
    (users u1 : List User) (h0 : countAdmins users = 0)
    (h1 : SeedInitialAdmin env vE vP vU createUserOk (some users) = .ok u1) :
    u1 = users ++ [⟨getEnvOr env "ADMIN_USERNAME" "admin",
      getEnvOr env "ADMIN_EMAIL" "admin@easypeek.com",
      getEnvOr env "ADMIN_PASSWORD" "admin123456", "admin", "active"⟩] := by
  have h2 : seedInitialAdminBody env vE vP vU createUserOk users = .ok u1 := h1
  unfold seedInitialAdminBody at h2
  rw [if_neg (by omega)] at h2
  split at h2
  · exact absurd h2 (by simp)
  · split at h2
    · exact absurd h2 (by simp)
    · split at h2
      · exact absurd h2 (by simp)
      · split at h2
        · exact absurd h2 (by simp)
        · simp only [createUserOk, Except.ok.injEq] at h2
          exact h2.symm

/-- C7.  Admin bootstrap is a successful no-op whenever an admin account
already exists; from an admin-free store a successful bootstrap yields
exactly one admin and a second call returns the store unchanged; and when
the configured email fails the email validator the call reports the
validation error (for any create primitive — none is invoked, so zero
accounts are created). -/
theorem seedInitialAdmin_bootstrap_once :
    (∀ (env : String → String) (vE vP vU : String → Bool)
      (createU : User → List User → Except String (List User)) (users : List User),
      countAdmins users > 0 →
      SeedInitialAdmin env vE vP vU createU (some users) = .ok users) ∧
    (∀ (env : String → String) (vE vP vU : String → Bool) (users u1 : List User),
      countAdmins users = 0 →
      SeedInitialAdmin env vE vP vU createUserOk (some users) = .ok u1 →
      countAdmins u1 = 1 ∧
      SeedInitialAdmin env vE vP vU createUserOk (some u1) = .ok u1) ∧
    (∀ (env : String → String) (vE vP vU : String → Bool)
      (createU createU' : User → List User → Except String (List User)) (users : List User),
      countAdmins users = 0 →
      vE (getEnvOr env "ADMIN_EMAIL" "admin@easypeek.com") = false →
      SeedInitialAdmin env vE vP vU createU (some users) =
        .error "invalid admin email format" ∧
      SeedInitialAdmin env vE vP vU createU (some users) =
        SeedInitialAdmin env vE vP vU createU' (some users)) := by
  refine ⟨?_, ?_, ?_⟩
  · intro env vE vP vU createU users h
    simp [SeedInitialAdmin, seedInitialAdminBody, h]
  · intro env vE vP vU users u1 h0 h1
    have hu := seedInitialAdmin_ok_inv env vE vP vU users u1 h0 h1
    have hcount : countAdmins u1 = 1 := by
      rw [hu, countAdmins_append, h0]
      rfl
    refine ⟨hcount, ?_⟩
    have hskip : SeedInitialAdmin env vE vP vU createUserOk (some u1) = .ok u1 := by
      simp [SeedInitialAdmin, seedInitialAdminBody, show countAdmins u1 > 0 by omega]
    exact hskip
  · intro env vE vP vU createU createU' users h0 hvE
    constructor <;> simp [SeedInitialAdmin, seedInitialAdminBody, h0, hvE]

/-- Witness for C7: from an empty store a bootstrap with the spec-modelled
email validator creates one admin and a second call is the identity, and
with `ADMIN_EMAIL` set to `"not-an-email"` the call reports the validation
error under two different create primitives. -/
theorem seedInitialAdmin_bootstrap_once_witness :
    (countAdmins [] = 0 ∧
      SeedInitialAdmin (fun _ => "") IsValidEmail (fun _ => true) (fun _ => true)
        createUserOk (some []) = .ok [⟨"admin", "admin@easypeek.com", "admin123456",
          "admin", "active"⟩] ∧
      countAdmins [⟨"admin", "admin@easypeek.com", "admin123456", "admin", "active"⟩] = 1 ∧
      SeedInitialAdmin (fun _ => "") IsValidEmail (fun _ => true) (fun _ => true)
        createUserOk (some [⟨"admin", "admin@easypeek.com", "admin123456", "admin", "active"⟩]) =
        .ok [⟨"admin", "admin@easypeek.com", "admin123456", "admin", "active"⟩]) ∧
    (IsValidEmail (getEnvOr (fun k => if k == "ADMIN_EMAIL" then "not-an-email" else "")
        "ADMIN_EMAIL" "admin@easypeek.com") = false ∧
      SeedInitialAdmin (fun k => if k == "ADMIN_EMAIL" then "not-an-email" else "")
        IsValidEmail (fun _ => true) (fun _ => true) createUserOk (some []) =
        .error "invalid admin email format") := by
  have hrun : SeedInitialAdmin (fun _ => "") IsValidEmail (fun _ => true) (fun _ => true)
      createUserOk (some []) = .ok [⟨"admin", "admin@easypeek.com", "admin123456",
        "admin", "active"⟩] := rfl
  have hpair := (seedInitialAdmin_bootstrap_once.2.1 (fun _ => "") IsValidEmail
    (fun _ => true) (fun _ => true) [] [⟨"admin", "admin@easypeek.com", "admin123456",
      "admin", "active"⟩] rfl hrun)
  refine ⟨⟨rfl, hrun, hpair.1, hpair.2⟩, by decide, ?_⟩
  exact (seedInitialAdmin_bootstrap_once.2.2 (fun k => if k == "ADMIN_EMAIL" then "not-an-email" else "")
    IsValidEmail (fun _ => true) (fun _ => true) createUserOk createUserOk [] rfl (by decide)).1

/-- C8.  All four paginated listing operations share one sanitization
policy: a page parameter that is absent, unparsable, or below 1 becomes 1,
and a size parameter that is absent, unparsable, or outside `[1, 100]`
becomes 10; in particular page `"0"` behaves as 1, size `"500"` as 10 and
size `"-1"` as 10. -/
theorem pagination_clamp :
    (∀ page size, GetAllNewsParams page size = (parsePage page, parseSize size) ∧
      SearchNewsParams page size = (parsePage page, parseSize size) ∧
      GetNewsByCategoryParams page size = (parsePage page, parseSize size) ∧
      GetUnlinkedNewsParams page size = (parsePage page, parseSize size)) ∧
    parsePage none = 1 ∧
    (∀ s, atoi s = none → parsePage (some s) = 1) ∧
    (∀ s (p : Int), atoi s = some p → p < 1 → parsePage (some s) = 1) ∧
    parseSize none = 10 ∧
    (∀ s, atoi s = none → parseSize (some s) = 10) ∧
    (∀ s (n : Int), atoi s = some n → (n < 1 ∨ n > 100) → parseSize (some s) = 10) ∧
    GetAllNewsParams (some "0") (some "500") = (1, 10) ∧
    SearchNewsParams (some "0") (some "-1") = (1, 10) ∧
    GetNewsByCategoryParams none (some "500") = (1, 10) ∧
    GetUnlinkedNewsParams (some "0") (some "-1") = (1, 10) := by
  refine ⟨fun page size => ⟨rfl, rfl, rfl, rfl⟩, by decide, ?_, ?_, by decide, ?_, ?_,
    by decide, by decide, by decide, by decide⟩
  · intro s h
    simp [parsePage, h]
  · intro s p h hp
    simp only [parsePage, Option.getD_some, h]
    rw [if_pos hp]
  · intro s h
    simp [parseSize, h]
  · intro s n h hn
    simp only [parseSize, Option.getD_some, h]
    rw [if_pos hn]

/-- Witness for C8 at the unparsable string `"abc"` and the boundary
values `"0"`, `"500"`, `"-1"`. -/
theorem pagination_clamp_witness :
    atoi "abc" = none ∧ parsePage (some "abc") = 1 ∧ parseSize (some "abc") = 10 ∧
    atoi "0" = some 0 ∧ parsePage (some "0") = 1 ∧
    atoi "500" = some 500 ∧ parseSize (some "500") = 10 ∧
    atoi "-1" = some (-1) ∧ parseSize (some "-1") = 10 :=
  ⟨by decide, pagination_clamp.2.2.1 "abc" (by decide),
   pagination_clamp.2.2.2.2.2.1 "abc" (by decide),
   by decide, pagination_clamp.2.2.2.1 "0" 0 (by decide) (by decide),
   by decide, pagination_clamp.2.2.2.2.2.2.1 "500" 500 (by decide) (Or.inr (by decide)),
   by decide, pagination_clamp.2.2.2.2.2.2.1 "-1" (-1) (by decide) (Or.inl (by decide))⟩

/-- C9.  The hot-news limit parameter defaults to 10 when absent,
unparsable, at most 0, or above 100 — in particular `"1000"` clamps to 10
and the listing then has at most 10 records — and the listing is always
ordered by descending hotness score with ties broken by identifier. -/
theorem hot_news_limit_clamp :
    parseLimit none = 10 ∧
    (∀ s, atoi s = none → parseLimit (some s) = 10) ∧
    (∀ s (l : Int), atoi s = some l → (l ≤ 0 ∨ l > 100) → parseLimit (some s) = 10) ∧
    (∀ db : List News, (GetHotNews db (some "1000")).length ≤ 10) ∧
    (∀ (db : List News) (q : Option String),
      (GetHotNews db q).length ≤ (parseLimit q).toNat) ∧
    (∀ (db : List News) (q : Option String), List.Sorted hotOrder (GetHotNews db q)) := by
  have hbound : ∀ (db : List News) (q : Option String),
      (GetHotNews db q).length ≤ (parseLimit q).toNat := by
    intro db q
    simp only [GetHotNews, GetHotNewsQuery, List.length_take]
    exact min_le_left _ _
  have hsort : ∀ (db : List News) (q : Option String),
      List.Sorted hotOrder (GetHotNews db q) := by
    intro db q
    exact List.Pairwise.sublist (List.take_sublist _ _)
      (List.sorted_insertionSort hotOrder db)
  refine ⟨by decide, ?_, ?_, ?_, hbound, hsort⟩
  · intro s h
    simp [parseLimit, h]
  · intro s l h hl
    simp only [parseLimit, Option.getD_some, h]
    rw [if_pos hl]
  · intro db
    exact le_trans (hbound db (some "1000")) (by decide)

/-- Witness for C9 at the unparsable string `"abc"`, the oversized
`"1000"`, and a one-row store. -/
theorem hot_news_limit_clamp_witness :
    atoi "abc" = none ∧ parseLimit (some "abc") = 10 ∧
    atoi "1000" = some 1000 ∧ parseLimit (some "1000") = 10 ∧
    (GetHotNews [sampleNews] (some "1000")).length ≤ 10 ∧
    List.Sorted hotOrder (GetHotNews [sampleNews] none) :=
  ⟨by decide, hot_news_limit_clamp.2.1 "abc" (by decide),
   by decide, hot_news_limit_clamp.2.2.1 "1000" 1000 (by decide) (Or.inr (by decide)),
   hot_news_limit_clamp.2.2.2.1 [sampleNews],
   hot_news_limit_clamp.2.2.2.2.2 [sampleNews] none⟩

theorem processCandidate_ok_counts
    (prim : List News → List News → Except String (List News))
    (parseTime : String → Option Nat) (now : Nat)
    (st : ImportState) (d : NewsJSONData) (st2 : ImportState)
    (h : processCandidate firstByGuidOrLink prim parseTime now st d = .ok st2) :
    st2.imported + st2.skipped = st.imported + st.skipped + 1 := by
  unfold processCandidate at h
  cases hf : firstByGuidOrLink st.db d.guid d.link with
  | dbError e => exact absurd hf (firstByGuidOrLink_ne_dbError st.db d.guid d.link e)
  | found n =>
    rw [hf] at h
    simp only [Except.ok.injEq] at h
    rw [← h]
    simp
    omega
  | notFound =>
    rw [hf] at h
    simp only [] at h
    split at h
    · split at h
      · exact absurd h (by simp)
      · simp only [Except.ok.injEq] at h
        rw [← h]
        simp
        omega
    · simp only [Except.ok.injEq] at h
      rw [← h]
      simp
      omega

theorem importLoop_counts
    (prim : List News → List News → Except String (List News))
    (parseTime : String → Option Nat) (now : Nat) :
    ∀ (cs : List NewsJSONData) (st st' : ImportState),
      importLoop firstByGuidOrLink prim parseTime now st cs = .ok st' →
      st'.imported + st'.skipped = st.imported + st.skipped + cs.length := by
  intro cs
  induction cs with
  | nil =>
    intro st st' h
    simp only [importLoop, Except.ok.injEq] at h
    rw [← h]
    simp
  | cons d ds ih =>
    intro st st' h
    unfold importLoop at h
    cases hp : processCandidate firstByGuidOrLink prim parseTime now st d with
    | error e => rw [hp] at h; exact absurd h (by simp)
    | ok st2 =>
      rw [hp] at h
      have h2 := ih st2 st' h
      have h1 := processCandidate_ok_counts prim parseTime now st d st2 hp
      simp only [List.length_cons]
      omega

/-- C10.  A candidate whose duplicate lookup faults with a storage error
other than not-found is dropped: the state — rows, buffer and both
counters — is unchanged and the loop continues; a one-candidate run whose
lookup faults therefore reports imported 0 and skipped 0 (their sum falls
short of the candidate count); and under the fault-free lookup, which
never returns a storage error, the two counters of a completed run sum to
exactly the number of candidates consumed. -/
theorem lookup_error_drops_candidate :
    (∀ (resolve : List News → String → String → LookupResult)
      (prim : List News → List News → Except String (List News))
      (parseTime : String → Option Nat) (now : Nat) (st : ImportState)
      (d : NewsJSONData) (e : String),
      resolve st.db d.guid d.link = .dbError e →
      processCandidate resolve prim parseTime now st d = .ok st) ∧
    ((SeedNewsFromJSON (fun _ _ _ => .dbError "connection reset") primOk (fun _ => none) 0
        (.ok [cand "g1" "http://a"]) (some [])).toOption.map
      (fun o => (o.imported, o.skipped)) = some (0, 0)) ∧
    (∀ (prim : List News → List News → Except String (List News))
      (parseTime : String → Option Nat) (now : Nat)
      (cs : List NewsJSONData) (st st' : ImportState),
      importLoop firstByGuidOrLink prim parseTime now st cs = .ok st' →
      st'.imported + st'.skipped = st.imported + st.skipped + cs.length) := by
  refine ⟨?_, by decide, fun prim parseTime now => importLoop_counts prim parseTime now⟩
  intro resolve prim parseTime now st d e hres
  unfold processCandidate
  rw [hres]

/-- Witness for C10: a faulting lookup leaves the initial state unchanged,
and a completed one-candidate run under the fault-free lookup has
counters summing to one. -/
theorem lookup_error_drops_candidate_witness :
    processCandidate (fun _ _ _ => .dbError "timeout") primOk (fun _ => none) 0
      ⟨[], [], 0, 0, []⟩ (cand "g1" "http://a") = .ok ⟨[], [], 0, 0, []⟩ ∧
    (1 : Nat) + 0 = 0 + 0 + [cand "g1" "http://a"].length := by
  have h : importLoop firstByGuidOrLink primOk (fun _ => none) 0 ⟨[], [], 0, 0, []⟩
      [cand "g1" "http://a"] =
      .ok ⟨[], [mkNews (fun _ => none) 0 (cand "g1" "http://a")], 1, 0, []⟩ := rfl
  exact ⟨lookup_error_drops_candidate.1 (fun _ _ _ => .dbError "timeout") primOk
      (fun _ => none) 0 ⟨[], [], 0, 0, []⟩ (cand "g1" "http://a") "timeout" rfl,
    lookup_error_drops_candidate.2.2 primOk (fun _ => none) 0 [cand "g1" "http://a"]
      ⟨[], [], 0, 0, []⟩ ⟨[], [mkNews (fun _ => none) 0 (cand "g1" "http://a")], 1, 0, []⟩ h⟩

end EasyPeek
